import Mathlib

/-!
Shallow embedding of the ZodiAI resolution-and-resilient-invocation pipeline.

The repository ships several divergent drafts of the same astrology tool:
* `src/app/api/chat/tools/astrology.ts`, first segment ("v1"): geocode via
  AstrologyAPI geo_details then an OpenStreetMap fallback; every stage of its
  `execute` is wrapped in try/catch.
* `src/app/api/chat/tools/astrology.ts`, second segment ("v2"): geocode via
  geo_details (geonames array), timezone via timezone_with_dst with a 5.5
  default, compute stage NOT wrapped in try/catch.
* `src/unnamed/part_003` ("p3"): static fallback city table, then OpenStreetMap
  with country-code based timezone inference.
* `src/unnamed/part_004` ("p4"): geo_details + a `timezone` endpoint lookup that
  throws on failure.
* `src/app/api/chat/route.ts`: the safe wrapper around the tool and the
  moderation gate in the POST handler.

Conventions of the embedding:
* A thrown / rejected JavaScript exception is `Except.error` with the message
  string; a normal return is `Except.ok`.
* JavaScript numbers appearing in parsed JSON are rationals (written with
  `mkRat`, e.g. 5.5 is `mkRat 11 2`); the result of `parseFloat` / `Number`
  conversions is `Option ℚ` with `none` standing for NaN (JSON itself cannot
  contain NaN, so JSON number fields are plain `ℚ`).
* JavaScript string primitives `trim` / `toLowerCase` are modelled by the
  structural functions `jsTrim` / `jsToLower` below.
* Network responses are supplied by explicit "oracle" values in an environment
  record; "the code performs no network call at this point" is expressed as
  independence of the result from the corresponding oracle field.
-/

abbrev Err := String

/-- JavaScript `String.prototype.toLowerCase` (ASCII range, which covers every
string the pipeline compares). -/
def jsToLower (s : String) : String := ⟨s.data.map Char.toLower⟩

/-- JavaScript `String.prototype.trim`: strip whitespace from both ends. -/
def jsTrim (s : String) : String :=
  ⟨((s.data.dropWhile Char.isWhitespace).reverse.dropWhile Char.isWhitespace).reverse⟩

/-- A JSON value sitting in a field the code inspects with `typeof x === "number"`:
either a JSON number or something else (string, object, null, ...). -/
inductive JField where
  | num (q : ℚ)
  | nonNum
deriving DecidableEq, Repr

/-! ## part_003: `geocodePlace` with the static fallback table -/

/-- One row of the hard-coded fallback table of `src/unnamed/part_003`. -/
structure TableEntry where
  lat : ℚ
  lon : ℚ
  timezoneId : String
  tzone : ℚ
deriving DecidableEq, Repr

/-- The `fallbackTable` literal of `src/unnamed/part_003` (lines 57–105).
Decimal constants are written with `mkRat` (19.076 = `mkRat 19076 1000`). -/
def fallbackTable : List (String × TableEntry) :=
  [ ("mumbai", ⟨mkRat 19076 1000, mkRat 728777 10000, "Asia/Kolkata", mkRat 11 2⟩)
  , ("mumbai, india", ⟨mkRat 19076 1000, mkRat 728777 10000, "Asia/Kolkata", mkRat 11 2⟩)
  , ("junagadh", ⟨mkRat 215167 10000, mkRat 704667 10000, "Asia/Kolkata", mkRat 11 2⟩)
  , ("junagadh, india", ⟨mkRat 215167 10000, mkRat 704667 10000, "Asia/Kolkata", mkRat 11 2⟩)
  , ("delhi", ⟨mkRat 286139 10000, mkRat 77209 1000, "Asia/Kolkata", mkRat 11 2⟩)
  , ("new delhi", ⟨mkRat 286139 10000, mkRat 77209 1000, "Asia/Kolkata", mkRat 11 2⟩)
  , ("bangalore", ⟨mkRat 129716 10000, mkRat 775946 10000, "Asia/Kolkata", mkRat 11 2⟩)
  , ("bengaluru", ⟨mkRat 129716 10000, mkRat 775946 10000, "Asia/Kolkata", mkRat 11 2⟩)
  , ("ahmedabad", ⟨mkRat 230225 10000, mkRat 725714 10000, "Asia/Kolkata", mkRat 11 2⟩) ]

/-- `fallbackTable[key]` object-property access. -/
def tableLookup (key : String) : Option TableEntry :=
  (fallbackTable.find? (fun p => p.fst = key)).map (fun p => p.snd)

/-- One raw OpenStreetMap / Nominatim candidate as consumed by the drafts:
`lat` / `lon` are the `parseFloat` results of the returned strings (`none` =
NaN), `countryCode` is `address?.country_code` (absent when address details
were not requested or returned), `displayName` is `display_name`. -/
structure OsmCand where
  lat : Option ℚ
  lon : Option ℚ
  countryCode : Option String
  displayName : String
deriving DecidableEq, Repr

/-- An HTTP response as consumed by part_003 (`res.ok`, `res.status`,
`res.json()`); `json` is `Except` because `res.json()` can reject. A payload
of `none` models a JSON body that is not an array. -/
structure HttpResp3 (J : Type) where
  ok : Bool
  status : Nat
  json : Except Err J
deriving Repr

/-- Result record of part_003's `geocodePlace` (`lat`, `lon`, `timezoneId`,
`tzone`, `resolvedPlace`); `lat` / `lon` are `Option ℚ` because the OSM branch
performs `parseFloat` with no NaN check. -/
structure GeoOut3 where
  lat : Option ℚ
  lon : Option ℚ
  timezoneId : String
  tzone : ℚ
  resolvedPlace : String
deriving DecidableEq, Repr

/-- The OpenStreetMap stage of part_003's `geocodePlace` (lines 118–152):
non-ok status throws, empty/non-array result throws, otherwise the first
candidate is used and the timezone is inferred from `address?.country_code`
(`"in"` → Asia/Kolkata +5.5, otherwise UTC 0). -/
def osmStage3 (fetchRes : Except Err (HttpResp3 (Option (List OsmCand))))
    (query : String) : Except Err GeoOut3 :=
  match fetchRes with
  | .error e => .error e
  | .ok resp =>
    if resp.ok then
      match resp.json with
      | .error e => .error e
      | .ok (some (best :: _)) =>
        let inIndia : Bool := match best.countryCode with
          | some cc => jsToLower cc == "in"
          | none => false
        .ok { lat := best.lat, lon := best.lon
            , timezoneId := if inIndia then "Asia/Kolkata" else "UTC"
            , tzone := if inIndia then mkRat 11 2 else 0
            , resolvedPlace := best.displayName }
      | .ok _ =>
        .error ("No geocoding results for \"" ++ query ++ "\"")
    else
      .error ("Geocoding request failed with status " ++ toString resp.status)

/-- part_003's `geocodePlace` (lines 51–152): trim, reject empty, lowercase
key into the static table, otherwise fall through to the Nominatim stage. -/
def geocodePlace3 (osmFetch : Except Err (HttpResp3 (Option (List OsmCand))))
    (place : String) : Except Err GeoOut3 :=
  let query := jsTrim place
  if query = "" then .error "Empty place string"
  else
    match tableLookup (jsToLower query) with
    | some fb =>
      .ok { lat := some fb.lat, lon := some fb.lon, timezoneId := fb.timezoneId
          , tzone := fb.tzone, resolvedPlace := query }
    | none => osmStage3 osmFetch query

/-- Modelled from the spec (section 4.2, claim C6): the normalization the spec
ascribes to the resolver — trim, lowercase, drop everything after a comma. -/
def specNormalize (place : String) : String :=
  ⟨(jsToLower (jsTrim place)).data.takeWhile (fun c => c ≠ ',')⟩

/-- Modelled from the spec (section 4.2 stage 2, claim C8): infer the timezone
pair purely from the candidate's country code — a known single-timezone
country gets its fixed identifier/offset, anything else UTC 0. -/
def specCountryCodeTz (countryCode : Option String) : String × ℚ :=
  match countryCode with
  | some cc => if jsToLower cc == "in" then ("Asia/Kolkata", mkRat 11 2) else ("UTC", 0)
  | none => ("UTC", 0)

/-- The numeric-range invariant of the spec's ResolvedLocation (section 3):
latitude ∈ [-90, 90], longitude ∈ [-180, 180], utcOffsetHours ∈ [-12, 14].
A NaN coordinate (`none`) violates it. -/
def locInvariant3 (g : GeoOut3) : Bool :=
  (match g.lat with | some v => decide (-90 ≤ v) && decide (v ≤ 90) | none => false) &&
  (match g.lon with | some v => decide (-180 ≤ v) && decide (v ≤ 180) | none => false) &&
  (decide (-12 ≤ g.tzone) && decide (g.tzone ≤ 14))

example : tableLookup "mumbai" =
    some ⟨mkRat 19076 1000, mkRat 728777 10000, "Asia/Kolkata", mkRat 11 2⟩ := by decide

example : jsToLower (jsTrim "  Mumbai ") = "mumbai" := by decide

example : specNormalize "Mumbai, Maharashtra, India" = "mumbai" := by decide

example : ∀ osm, geocodePlace3 osm "Mumbai" =
    .ok { lat := some (mkRat 19076 1000), lon := some (mkRat 728777 10000)
        , timezoneId := "Asia/Kolkata", tzone := mkRat 11 2, resolvedPlace := "Mumbai" } := by
  intro osm
  rfl

/-! ## v1: first segment of `src/app/api/chat/tools/astrology.ts` (lines 1–298) -/

/-- An HTTP response as consumed by v1's `callAstrologyApi` / OSM fallback:
`ok`, `status`, `statusText`, `response.text()` (may reject) and
`response.json()` (may reject; `none` payload = body is not an array). -/
structure HttpResp1 (J : Type) where
  ok : Bool
  status : Nat
  statusText : String
  textResult : Except Err String
  json : Except Err J
deriving Repr

/-- The message of the `Error` thrown by v1's `callAstrologyApi` on a non-2xx
status (astrology.ts lines 52–54). -/
def astroErrMsg1 (endpoint : String) (status : Nat) (statusText text : String) : String :=
  "AstrologyAPI error (" ++ endpoint ++ "): " ++ toString status ++ " " ++ statusText ++ " " ++ text

/-- The message thrown by v1's `getAstrologyAuthHeader` when either credential
is unset (astrology.ts lines 12–16). -/
def credsMsg1 : String :=
  "ASTROLOGY_API_USER_ID or ASTROLOGY_API_KEY is not set in environment."

/-- v1's `callAstrologyApi` (astrology.ts lines 36–58): builds the auth header
(throws when credentials are missing), POSTs, and on a non-ok response reads
the body text (`.catch(() => "")`) and THROWS a formatted `Error`; on an ok
response it returns `response.json()` (whose rejection propagates). A fetch
rejection itself also propagates. -/
def callAstrologyApi1 {J : Type} (creds : Bool) (endpoint : String)
    (fetchRes : Except Err (HttpResp1 J)) : Except Err J :=
  if creds = false then .error credsMsg1
  else
    match fetchRes with
    | .error e => .error e
    | .ok resp =>
      if resp.ok then resp.json
      else
        let text := match resp.textResult with
          | .ok t => t
          | .error _ => ""
        .error (astroErrMsg1 endpoint resp.status resp.statusText text)

/-- One element of the `geo_details` response array as consumed by v1
(astrology.ts lines 72–80). Outer `Option` = field present in the JSON;
inner `Option ℚ` = result of the string-parseFloat / `Number(...)` conversion
the code applies (`none` = NaN). -/
structure GeoResult1 where
  timezone_id : Option String
  timezone : Option (Option ℚ)
  tzone : Option (Option ℚ)
  latitude : Option (Option ℚ)
  longitude : Option (Option ℚ)
  lat : Option (Option ℚ)
  lon : Option (Option ℚ)
deriving DecidableEq, Repr

/-- v1's `LocationInfo` (astrology.ts lines 60–65); numeric fields may be NaN
(`none`) on the OSM path. -/
structure LocationInfo where
  timezoneId : String
  tzone : Option ℚ
  lat : Option ℚ
  lon : Option ℚ
deriving DecidableEq, Repr

/-- The body of v1's geo_details attempt (astrology.ts lines 87–110): take the
first element of a non-empty array, default `timezone_id` through `||`
(falsy empty string), chain `tzone ?? timezone ?? 5.5`, `latitude ?? lat`,
`longitude ?? lon`, and accept only if latitude, longitude and tzone all
convert to non-NaN numbers; `none` = fall through to OSM. -/
def tryGeoDetails1 (geo : Option (List GeoResult1)) : Option LocationInfo :=
  match geo with
  | some (first :: _) =>
    let timezoneId := match first.timezone_id with
      | some s => if s = "" then "Asia/Kolkata" else s
      | none => "Asia/Kolkata"
    let tzoneRaw : Option ℚ := match first.tzone with
      | some v => v
      | none => match first.timezone with
        | some v => v
        | none => some (mkRat 11 2)
    let latRaw : Option ℚ := match first.latitude with
      | some v => v
      | none => match first.lat with
        | some v => v
        | none => none
    let lonRaw : Option ℚ := match first.longitude with
      | some v => v
      | none => match first.lon with
        | some v => v
        | none => none
    match latRaw, lonRaw, tzoneRaw with
    | some la, some lo, some tz =>
      some { timezoneId := timezoneId, tzone := some tz, lat := some la, lon := some lo }
    | _, _, _ => none
  | _ => none

/-- v1's "very rough timezone guess" over the OSM coordinates (astrology.ts
lines 145–152): inside the box lat ∈ [6, 37], lon ∈ [68, 98] → Asia/Kolkata
+5.5, otherwise UTC 0; a NaN coordinate fails the comparison chain. -/
def osmGuess1 (lat lon : Option ℚ) : String × ℚ :=
  match lat, lon with
  | some la, some lo =>
    if 6 ≤ la ∧ la ≤ 37 ∧ 68 ≤ lo ∧ lo ≤ 98 then ("Asia/Kolkata", mkRat 11 2)
    else ("UTC", 0)
  | _, _ => ("UTC", 0)

/-- v1's OSM fallback stage (astrology.ts lines 116–154): a fetch rejection or
`json()` rejection propagates, a non-ok status throws, an empty or non-array
body throws `No location found`, otherwise the first candidate's parsed
coordinates are taken (no NaN check) and the box guess assigns the timezone. -/
def osmStage1 (fetchRes : Except Err (HttpResp1 (Option (List OsmCand))))
    (place : String) : Except Err LocationInfo :=
  match fetchRes with
  | .error e => .error e
  | .ok resp =>
    if resp.ok then
      match resp.json with
      | .error e => .error e
      | .ok (some (first :: _)) =>
        let g := osmGuess1 first.lat first.lon
        .ok { timezoneId := g.1, tzone := some g.2, lat := first.lat, lon := first.lon }
      | .ok _ => .error ("No location found for \"" ++ place ++ "\"")
    else
      .error ("OSM geocode failed for \"" ++ place ++ "\": " ++ toString resp.status)

/-- Opaque upstream JSON payload forwarded to the model. -/
abbrev AstroPayload := String

/-- The network environment of v1: credentials flag plus one oracle per
outbound request (`geo_details`, the OSM search, and the two compute
endpoints keyed by endpoint name). -/
structure Env1 where
  creds : Bool
  geoFetch : Except Err (HttpResp1 (Option (List GeoResult1)))
  osmFetch : Except Err (HttpResp1 (Option (List OsmCand)))
  computeFetch : String → Except Err (HttpResp1 AstroPayload)

/-- v1's `geocodePlace` (astrology.ts lines 69–155): try the geo_details stage
inside try/catch (any throw or unusable payload falls through), then the OSM
stage, whose exceptions propagate. -/
def geocodePlace1 (env : Env1) (place : String) : Except Err LocationInfo :=
  match (match callAstrologyApi1 env.creds "geo_details" env.geoFetch with
         | .error _ => none
         | .ok geo => tryGeoDetails1 geo) with
  | some loc => .ok loc
  | none => osmStage1 env.osmFetch place

/-- v1's `AstrologyToolResult` union (astrology.ts lines 157–187):
`{type:"error"}`, `{type:"birth_chart"}`, `{type:"prediction"}`. -/
inductive ToolResult1 where
  | error (message : String)
  | birthChart (name place timezoneId : String) (tzone lat lon : Option ℚ)
      (rawAstroDetails : AstroPayload)
  | prediction (name place timezoneId : String) (tzone lat lon : Option ℚ)
      (rawPrediction : AstroPayload)
deriving DecidableEq, Repr

/-- The tool input object shared by the drafts (zod-validated BirthQuery). -/
structure ToolInput where
  name : String
  day : Nat
  month : Nat
  year : Nat
  hour : Nat
  minute : Nat
  place : String
  queryType : String
deriving DecidableEq, Repr

/-- v1's location-failure message (astrology.ts lines 227–230). -/
def v1GeoFailMsg (place : String) : String :=
  "I couldn\x27t resolve the place \"" ++ place ++
    "\" into a valid location. Ask the user for a nearby major city (for example, instead of a small village use the closest district HQ)."

/-- v1's chart-failure message (astrology.ts lines 265–269). -/
def v1ChartFailMsg : String :=
  "I ran into an issue while fetching your detailed birth chart. Give a softer, high-level reading instead of going silent."

/-- v1's prediction-failure message (astrology.ts lines 292–296). -/
def v1PredFailMsg : String :=
  "I faced a problem while fetching your horoscope data. Fall back to a gentle, sign-based prediction instead of failing."

/-- v1's `execute` (astrology.ts lines 216–298): geocode inside try/catch,
then the compute call for the selected query type inside try/catch; every
branch returns one of the three `ToolResult1` shapes. -/
def execute1 (env : Env1) (q : ToolInput) : Except Err ToolResult1 :=
  match geocodePlace1 env q.place with
  | .error _ => .ok (.error (v1GeoFailMsg q.place))
  | .ok loc =>
    if q.queryType = "birth_chart" then
      match callAstrologyApi1 env.creds "astro_details" (env.computeFetch "astro_details") with
      | .error _ => .ok (.error v1ChartFailMsg)
      | .ok raw =>
        .ok (.birthChart q.name q.place loc.timezoneId loc.tzone loc.lat loc.lon raw)
    else
      match callAstrologyApi1 env.creds "birth_details" (env.computeFetch "birth_details") with
      | .error _ => .ok (.error v1PredFailMsg)
      | .ok raw =>
        .ok (.prediction q.name q.place loc.timezoneId loc.tzone loc.lat loc.lon raw)

/-! ## v2: second segment of `src/app/api/chat/tools/astrology.ts` (lines 299–507) -/

/-- An HTTP response as consumed by v2's `callAstrologyApi`: the body text is
read first (`res.text()`, may reject) and `parsed` is the outcome of
`JSON.parse(text)` (`none` = parse failure, in which case the raw text is
returned). -/
structure HttpResp2 (J : Type) where
  ok : Bool
  status : Nat
  textResult : Except Err String
  parsed : Option J
deriving Repr

/-- v2's `callAstrologyApi` result: parsed JSON, or the raw body text when
`JSON.parse` failed. -/
inductive JsonOrText (J : Type) where
  | json (j : J)
  | text (t : String)
deriving DecidableEq, Repr

/-- The message thrown by v2's `getAuthHeader` when credentials are missing
(astrology.ts lines 313–315). -/
def credsMsg2 : String :=
  "Astrology API credentials missing. Set ASTROLOGY_API_USER_ID and ASTROLOGY_API_KEY in env."

/-- v2's `callAstrologyApi` (astrology.ts lines 323–346): auth header first
(throws when credentials missing), fetch (rejection propagates), read the
body text (rejection propagates), THROW `AstrologyAPI <endpoint> <status>:
<text>` on non-ok, else return `JSON.parse(text)` or the raw text. -/
def callAstrologyApi2 {J : Type} (creds : Bool) (endpoint : String)
    (fetchRes : Except Err (HttpResp2 J)) : Except Err (JsonOrText J) :=
  if creds = false then .error credsMsg2
  else
    match fetchRes with
    | .error e => .error e
    | .ok resp =>
      match resp.textResult with
      | .error e => .error e
      | .ok text =>
        if resp.ok then
          .ok (match resp.parsed with
               | some j => .json j
               | none => .text text)
        else
          .error ("AstrologyAPI " ++ endpoint ++ " " ++ toString resp.status ++ ": " ++ text)

/-- One element of v2's `geonames` array (astrology.ts lines 429–433):
`latitude` / `longitude` hold the result of `Number(...)` (`none` = NaN),
`place_name` and `country_code` are optional strings. -/
structure Geoname2 where
  latitude : Option ℚ
  longitude : Option ℚ
  place_name : Option String
  country_code : Option String
deriving DecidableEq, Repr

/-- v2's geo_details response object: `geoResp?.geonames`, `none` when the
field is absent or not an array. -/
structure GeoResp2 where
  geonames : Option (List Geoname2)
deriving DecidableEq, Repr

/-- v2's timezone_with_dst response object: the `timezone` field as the code
tests it with `typeof === "number"`. -/
structure TzResp2 where
  timezone : Option JField
deriving DecidableEq, Repr

/-- JavaScript `a || b` for an optional string `a` (empty string is falsy). -/
def jsStrOr (v : Option String) (d : String) : String :=
  match v with
  | some s => if s = "" then d else s
  | none => d

/-- The network environment of v2. -/
structure Env2 where
  creds : Bool
  geoFetch : Except Err (HttpResp2 GeoResp2)
  tzFetch : Except Err (HttpResp2 TzResp2)
  computeFetch : String → Except Err (HttpResp2 AstroPayload)

/-- v2's timezone stage (astrology.ts lines 435–449): start from the safe
default 5.5, call timezone_with_dst inside try/catch, and overwrite the
default only when the response carries a numeric `timezone` field. -/
def tzStage2 (creds : Bool) (tzFetch : Except Err (HttpResp2 TzResp2)) : ℚ :=
  match callAstrologyApi2 creds "timezone_with_dst" tzFetch with
  | .error _ => mkRat 11 2
  | .ok (.text _) => mkRat 11 2
  | .ok (.json t) =>
    match t.timezone with
    | some (.num q) => q
    | _ => mkRat 11 2

/-- Decidable description of "the timezone provider attempt failed" for v2:
the call threw, or the payload was not JSON, or it had no numeric `timezone`
field. -/
def tzFailed2 (creds : Bool) (tzFetch : Except Err (HttpResp2 TzResp2)) : Bool :=
  match callAstrologyApi2 creds "timezone_with_dst" tzFetch with
  | .error _ => true
  | .ok (.text _) => true
  | .ok (.json t) =>
    match t.timezone with
    | some (.num _) => false
    | _ => true

/-- v2's geo-stage failure message (astrology.ts lines 412–418). -/
def v2GeoFailMsg : String :=
  "Failed to contact astrology geo service. This is likely an API / credentials issue, not the city name."

/-- Constant prefix of v2's location-not-found message. -/
def v2LnfPre : String := "Astrology provider could not find a match for \""

/-- Constant suffix of v2's location-not-found message. -/
def v2LnfSuf : String :=
  "\". Ask the user to try the nearest bigger city (e.g. \"Rajkot\", \"Ahmedabad\", \"Mumbai\")."

/-- v2's location-not-found message (astrology.ts lines 423–426), carrying the
raw `place` input verbatim between the constant prefix and suffix. -/
def v2LnfMsg (place : String) : String := v2LnfPre ++ place ++ v2LnfSuf

/-- v2's unsupported-queryType message (astrology.ts lines 500–505). -/
def v2BadQueryMsg : String :=
  "Unsupported queryType in astrologyTool. Use \"birth_details\" or \"daily_nakshatra_prediction\"."

/-- v2's result union (astrology.ts lines 412–505): `{type:'error',
step:'geo_details', message, technical}`, `{type:'location_not_found'}`,
`{type:'birth_details'}`, `{type:'daily_nakshatra_prediction'}`, and the
final `{type:'error', step:'queryType'}` fallback. -/
inductive ToolResult2 where
  | errorGeo (message technical : String)
  | locationNotFound (message : String)
  | birthDetails (name place : String) (latitude longitude : Option ℚ)
      (timezone : ℚ) (raw : JsonOrText AstroPayload)
  | dailyPrediction (name place : String) (latitude longitude : Option ℚ)
      (timezone : ℚ) (raw : JsonOrText AstroPayload)
  | errorQueryType (message : String)
deriving DecidableEq, Repr

/-- v2's `execute` (astrology.ts lines 401–506): geo_details inside try/catch,
empty `geonames` → location_not_found, timezone stage with its 5.5 default,
then the compute call for the selected query type — NOT wrapped in try/catch,
so a compute-stage throw propagates out of `execute`. -/
def execute2 (env : Env2) (q : ToolInput) : Except Err ToolResult2 :=
  match callAstrologyApi2 env.creds "geo_details" env.geoFetch with
  | .error e => .ok (.errorGeo v2GeoFailMsg e)
  | .ok geoResp =>
    let geonames : Option (List Geoname2) :=
      match geoResp with
      | .json g => g.geonames
      | .text _ => none
    match geonames with
    | none => .ok (.locationNotFound (v2LnfMsg q.place))
    | some [] => .ok (.locationNotFound (v2LnfMsg q.place))
    | some (first :: _) =>
      let latitude := first.latitude
      let longitude := first.longitude
      let resolvedPlace :=
        jsStrOr first.place_name
          (jsTrim q.place ++ " (" ++ jsStrOr first.country_code "unknown" ++ ")")
      let timezone := tzStage2 env.creds env.tzFetch
      if q.queryType = "birth_details" then
        match callAstrologyApi2 env.creds "astro_details" (env.computeFetch "astro_details") with
        | .error e => .error e
        | .ok astro =>
          .ok (.birthDetails q.name resolvedPlace latitude longitude timezone astro)
      else if q.queryType = "daily_nakshatra_prediction" then
        match callAstrologyApi2 env.creds "daily_nakshatra_prediction"
            (env.computeFetch "daily_nakshatra_prediction") with
        | .error e => .error e
        | .ok p =>
          .ok (.dailyPrediction q.name resolvedPlace latitude longitude timezone p)
      else .ok (.errorQueryType v2BadQueryMsg)

/-! ## route.ts: safe wrapper and moderation gate -/

/-- The degraded message of the route wrapper when the inner tool threw
(route.ts lines 47–51). -/
def wrapUnavailableMsg : String :=
  "The external astrology service is temporarily unavailable. Please answer using general Vedic astrology principles only, without external API data."

/-- The degraded message of the route wrapper when the inner tool returned
`undefined` (route.ts lines 34–40). -/
def wrapNoDataMsg : String :=
  "Astrology service returned no data. Please answer using general Vedic astrology knowledge only."

/-- The wrapper's output: either the inner tool result passed through, or the
degraded `{ok:false, message}` payload. -/
inductive WrapResult (R : Type) where
  | result (r : R)
  | degraded (ok : Bool) (message : String)
deriving DecidableEq, Repr

/-- The safe `execute` wrapper of route.ts (lines 27–54): run the inner tool
inside try/catch; a throw becomes the "temporarily unavailable" degraded
payload, an `undefined` result becomes the "no data" degraded payload, and
any other result is passed through unchanged. -/
def safeExecute {R : Type} (inner : Except Err (Option R)) : WrapResult R :=
  match inner with
  | .error _ => .degraded false wrapUnavailableMsg
  | .ok none => .degraded false wrapNoDataMsg
  | .ok (some r) => .result r

/-- The wrapper as wired in route.ts: the inner tool is v2's `execute`
(imported from `./tools/astrology`), which never returns `undefined` but may
throw. -/
def safeInvoke (env : Env2) (q : ToolInput) : WrapResult ToolResult2 :=
  safeExecute ((execute2 env q).map some)

/-! ## part_004: `lookupTimezoneOffset` -/

/-- An HTTP response as consumed by part_004's `callAstrologyApi`. -/
structure HttpResp4 (J : Type) where
  ok : Bool
  status : Nat
  textResult : Except Err String
  json : Except Err J
deriving Repr

/-- The message thrown by part_004's `buildAuthHeader` when credentials are
missing (part_004 lines 17–22). -/
def credsMsg4 : String :=
  "Astrology API credentials are not configured. Please set ASTROLOGY_API_USER_ID and ASTROLOGY_API_KEY in your environment."

/-- part_004's `callAstrologyApi` (lines 32–52): auth header (throws when
credentials missing), fetch (rejection propagates), on non-ok read the body
text (rejection propagates) and THROW `AstrologyAPI error <status>: <text>`,
else return `res.json()`. -/
def callAstrologyApi4 {J : Type} (creds : Bool)
    (fetchRes : Except Err (HttpResp4 J)) : Except Err J :=
  if creds = false then .error credsMsg4
  else
    match fetchRes with
    | .error e => .error e
    | .ok resp =>
      if resp.ok then resp.json
      else
        match resp.textResult with
        | .error e => .error e
        | .ok text => .error ("AstrologyAPI error " ++ toString resp.status ++ ": " ++ text)

/-- part_004's `timezone` endpoint response: `timezoneParsed` is the result of
`parseFloat(String(data.timezone))` (`none` = NaN, e.g. when the field is
absent or non-numeric). -/
structure TzData4 where
  timezoneParsed : Option ℚ
deriving DecidableEq, Repr

/-- part_004's `lookupTimezoneOffset` (lines 84–100): call the `timezone`
endpoint (any throw propagates), parse the `timezone` field, and THROW when
the parse yields NaN; there is no default-offset fallback. -/
def lookupTimezoneOffset4 (creds : Bool)
    (tzFetch : Except Err (HttpResp4 TzData4)) (timezoneId : String) : Except Err ℚ :=
  match callAstrologyApi4 creds tzFetch with
  | .error e => .error e
  | .ok data =>
    match data.timezoneParsed with
    | some offset => .ok offset
    | none =>
      .error ("Couldn\x27t resolve timezone offset for \"" ++ timezoneId ++
        "\". Please try again with a different city.")

/-! ## route.ts POST handler: moderation gate -/

/-- One part of a UIMessage; the handler only distinguishes `type = "text"`. -/
structure MsgPart where
  type : String
  text : String
deriving DecidableEq, Repr

/-- A UIMessage as filtered by the handler. -/
structure UIMsg where
  role : String
  parts : List MsgPart
deriving DecidableEq, Repr

/-- The moderation verdict (`lib/moderation`'s `isContentFlagged` result). -/
structure ModRes where
  flagged : Bool
  denialMessage : Option String
deriving DecidableEq, Repr

/-- route.ts lines 63–66: join the `text` of all `type = "text"` parts of a
message. -/
def extractText (m : UIMsg) : String :=
  String.join ((m.parts.filter (fun p => p.type = "text")).map (fun p => p.text))

/-- The default denial text (route.ts lines 81–83, behind `||`). -/
def defaultDenialMsg : String :=
  "Your message violates our guidelines. I can\x27t answer that."

/-- `moderationResult.denialMessage || default` (route.ts lines 81–83). -/
def denialDelta (mr : ModRes) : String := jsStrOr mr.denialMessage defaultDenialMsg

/-- Outcome of the POST handler: the moderation denial stream with its text
delta, or the main chat logic (model + tools), abstracted by `α`. -/
inductive ChatOutcome (α : Type) where
  | moderationDenial (delta : String)
  | chat (a : α)
deriving DecidableEq, Repr

/-- route.ts `POST` (lines 56–142) down to the branch between the moderation
denial stream and the main chat logic. `runChat` stands for the entire
`streamText` call with its tools map (the model and every tool, including the
astrology tool); it is only consulted in the non-denial branch. -/
def postHandler {α : Type} (moderate : String → ModRes) (runChat : Unit → α)
    (messages : List UIMsg) : ChatOutcome α :=
  match (messages.filter (fun m => m.role = "user")).getLast? with
  | some latest =>
    let textParts := extractText latest
    if textParts = "" then .chat (runChat ())
    else
      let mr := moderate textParts
      if mr.flagged then .moderationDenial (denialDelta mr)
      else .chat (runChat ())
  | none => .chat (runChat ())

/-! ## Theorems -/

/-- C2: for every behaviour of the inner tool, the safe execute wrapper in the
chat route returns a concrete result object: a throw becomes the
"temporarily unavailable" degraded payload, an `undefined` result becomes the
"no data" degraded payload, any real result passes through; composed with the
imported tool's `execute`, the wrapper therefore always yields either a
passed-through `ToolResult2` or the degraded payload — never an absent value
and never a propagated exception. -/
theorem C2_wrapper_always_returns {R : Type} :
    (∀ e : Err, safeExecute (R := R) (Except.error e) = .degraded false wrapUnavailableMsg) ∧
    (safeExecute (R := R) (Except.ok none) = .degraded false wrapNoDataMsg) ∧
    (∀ r : R, safeExecute (Except.ok (some r)) = .result r) ∧
    (∀ (env : Env2) (q : ToolInput),
      (∃ r, safeInvoke env q = .result r) ∨
        safeInvoke env q = .degraded false wrapUnavailableMsg) := by
  refine ⟨fun e => rfl, rfl, fun r => rfl, fun env q => ?_⟩
  unfold safeInvoke
  cases execute2 env q with
  | error e => exact Or.inr rfl
  | ok r => exact Or.inl ⟨r, rfl⟩

/-- A concrete non-2xx response for claim C3. -/
def respC3 : HttpResp1 AstroPayload :=
  { ok := false, status := 500, statusText := "Internal Server Error"
  , textResult := .ok "boom", json := .error "body stream not readable" }

/-- C3 counterexample: on a non-2xx HTTP status, `callAstrologyApi` does not
return a structured value — it THROWS (models as `Except.error`), so the
claim "returns a structured UpstreamError value rather than throwing" is
false at this concrete 500 response. -/
theorem C3_counterexample :
    callAstrologyApi1 true "astro_details" (Except.ok respC3) =
      Except.error "AstrologyAPI error (astro_details): 500 Internal Server Error boom" := by
  rfl

/-- C3 amended: on a non-2xx status (with a readable body), `callAstrologyApi`
throws an `Error` whose message is built from the status code, the endpoint
and the body text; the structured shape lives in the thrown message, which
the caller's try/catch consumes, not in a returned value. -/
theorem C3_amended_throws_structured {J : Type} (endpoint : String)
    (resp : HttpResp1 J) (t : String)
    (hok : resp.ok = false) (ht : resp.textResult = Except.ok t) :
    callAstrologyApi1 true endpoint (Except.ok resp) =
      Except.error (astroErrMsg1 endpoint resp.status resp.statusText t) := by
  unfold callAstrologyApi1
  simp [hok, ht]

/-- C3 amended, witness at the concrete 500 response. -/
theorem C3_amended_witness :
    respC3.ok = false ∧
    callAstrologyApi1 true "astro_details" (Except.ok respC3) =
      Except.error (astroErrMsg1 "astro_details" 500 "Internal Server Error" "boom") :=
  ⟨rfl, C3_amended_throws_structured "astro_details" respC3 "boom" rfl rfl⟩

/-- A timezone-provider stub returning HTTP 500, as consumed by part_004. -/
def tzFetch4_500 : Except Err (HttpResp4 TzData4) :=
  .ok { ok := false, status := 500, textResult := .ok "Internal Server Error"
      , json := .error "not json" }

/-- C4 counterexample: part_004's `lookupTimezoneOffset` (one of the two
cited timezone resolvers) does NOT fall back to +5.5 on provider failure —
with the provider returning 500 it propagates an exception, so offset
resolution there does abort chart computation. -/
theorem C4_counterexample :
    lookupTimezoneOffset4 true tzFetch4_500 "Asia/Kolkata" =
        Except.error "AstrologyAPI error 500: Internal Server Error" ∧
      lookupTimezoneOffset4 true tzFetch4_500 "Asia/Kolkata" ≠
        Except.ok (mkRat 11 2) := by
  refine ⟨rfl, ?_⟩
  intro h
  rw [show lookupTimezoneOffset4 true tzFetch4_500 "Asia/Kolkata" =
      Except.error "AstrologyAPI error 500: Internal Server Error" from rfl] at h
  exact Except.noConfusion h

/-- C4 amended: the timezone stage actually serving the chat route (the
inline `timezone_with_dst` stage of astrology.ts lines 435–449) does satisfy
the fallback: on every failure — thrown call, non-JSON payload, or missing /
non-numeric `timezone` field — it yields exactly the default offset +5.5, and
being a total function into ℚ it always yields a finite numeric value;
part_004's `lookupTimezoneOffset` instead throws (see the counterexample). -/
theorem C4_amended_tz_default (creds : Bool)
    (tzFetch : Except Err (HttpResp2 TzResp2))
    (hfail : tzFailed2 creds tzFetch = true) :
    tzStage2 creds tzFetch = mkRat 11 2 := by
  unfold tzStage2
  unfold tzFailed2 at hfail
  cases hc : callAstrologyApi2 creds "timezone_with_dst" tzFetch with
  | error e => rfl
  | ok j =>
    rw [hc] at hfail
    cases j with
    | text t => rfl
    | json t =>
      cases htz : t.timezone with
      | none => simp [htz]
      | some f =>
        cases f with
        | num q => simp [htz] at hfail
        | nonNum => simp [htz]

/-- A timezone-provider stub returning HTTP 500, as consumed by v2. -/
def tzFetch2_500 : Except Err (HttpResp2 TzResp2) :=
  .ok { ok := false, status := 500, textResult := .ok "Internal Server Error", parsed := none }

/-- C4 amended, witness: with the provider stub returning 500 the route's
timezone stage resolves to exactly +5.5. -/
theorem C4_amended_witness :
    tzFailed2 true tzFetch2_500 = true ∧ tzStage2 true tzFetch2_500 = mkRat 11 2 :=
  ⟨rfl, C4_amended_tz_default true tzFetch2_500 rfl⟩

/-- C5: for every place string whose trimmed, lowercased form is a key of the
static fallback table, `geocodePlace` returns exactly the tabulated latitude,
longitude, timezone identifier and offset together with the trimmed input as
the resolved name — and the result is the same for every state of the
network oracle, i.e. no geocoding network call is consulted. -/
theorem C5_static_table_no_network (place : String) (e : TableEntry)
    (h : tableLookup (jsToLower (jsTrim place)) = some e) :
    ∀ osm, geocodePlace3 osm place =
      Except.ok { lat := some e.lat, lon := some e.lon, timezoneId := e.timezoneId
                , tzone := e.tzone, resolvedPlace := jsTrim place } := by
  intro osm
  have hne : ¬ (jsTrim place = "") := by
    intro h0
    rw [h0] at h
    have hnone : tableLookup (jsToLower "") = none := by decide
    rw [hnone] at h
    exact Option.noConfusion h
  simp only [geocodePlace3]
  rw [if_neg hne, h]

/-- C5 witness: the claim's own example — "Mumbai" resolves to lat 19.076,
lon 72.8777, Asia/Kolkata, +5.5, even against a dead network oracle. -/
theorem C5_witness :
    tableLookup (jsToLower (jsTrim "Mumbai")) =
        some ⟨mkRat 19076 1000, mkRat 728777 10000, "Asia/Kolkata", mkRat 11 2⟩ ∧
    geocodePlace3 (Except.error "network unreachable") "Mumbai" =
      Except.ok { lat := some (mkRat 19076 1000), lon := some (mkRat 728777 10000)
                , timezoneId := "Asia/Kolkata", tzone := mkRat 11 2
                , resolvedPlace := "Mumbai" } :=
  ⟨by decide,
    C5_static_table_no_network "Mumbai"
      ⟨mkRat 19076 1000, mkRat 728777 10000, "Asia/Kolkata", mkRat 11 2⟩
      (by decide) (Except.error "network unreachable")⟩

/-- C6 counterexample: the spec's normalization (trim, lowercase, drop after
the first comma) of "Mumbai, Maharashtra, India" is "mumbai", which IS a
static-table key — yet `geocodePlace` does not hit the table for that input:
its key keeps the comma qualifiers, misses the table, and the resolver goes
to the network (here: the oracle's failure surfaces), not to the Mumbai
entry. -/
theorem C6_counterexample :
    tableLookup (specNormalize "Mumbai, Maharashtra, India") =
        some ⟨mkRat 19076 1000, mkRat 728777 10000, "Asia/Kolkata", mkRat 11 2⟩ ∧
    geocodePlace3 (Except.error "network unreachable") "Mumbai, Maharashtra, India" =
      Except.error "network unreachable" := by
  exact ⟨by decide, rfl⟩

/-- C6 amended: the resolver's normalization is trim + lowercase only (no
comma-dropping); a comma-qualified string hits the static table exactly when
the whole normalized string is itself a table key — so "Mumbai, India" (a
listed variant) short-circuits to the Mumbai entry, while
"Mumbai, Maharashtra, India" falls through to the network stage. -/
theorem C6_amended_comma_variants :
    (∀ osm, geocodePlace3 osm "Mumbai, India" =
      Except.ok { lat := some (mkRat 19076 1000), lon := some (mkRat 728777 10000)
                , timezoneId := "Asia/Kolkata", tzone := mkRat 11 2
                , resolvedPlace := "Mumbai, India" }) ∧
    (∀ osm, geocodePlace3 osm "Mumbai, Maharashtra, India" =
      osmStage3 osm "Mumbai, Maharashtra, India") := by
  exact ⟨fun osm => rfl, fun osm => rfl⟩

/-- Helper: the first-candidate behaviour of part_003's OSM stage — an ok
response whose JSON is a non-empty array yields the first candidate's parsed
coordinates with the country-code timezone inference. -/
theorem osmStage3_first (best : OsmCand) (rest : List OsmCand)
    (resp : HttpResp3 (Option (List OsmCand))) (query : String)
    (hok : resp.ok = true) (hjson : resp.json = Except.ok (some (best :: rest))) :
    osmStage3 (Except.ok resp) query =
      Except.ok { lat := best.lat, lon := best.lon
                , timezoneId := (specCountryCodeTz best.countryCode).1
                , tzone := (specCountryCodeTz best.countryCode).2
                , resolvedPlace := best.displayName } := by
  unfold osmStage3
  dsimp only
  rw [hok, hjson]
  cases hcc : best.countryCode with
  | none => simp [specCountryCodeTz, hcc]
  | some cc =>
    by_cases hin : (jsToLower cc == "in") = true
    · simp [specCountryCodeTz, hcc, hin]
    · simp [specCountryCodeTz, hcc, hin]

/-- A first-ranked provider candidate whose country code is "in" but whose
coordinates lie outside the astrology.ts India bounding box. -/
def candC8 : OsmCand :=
  { lat := some 50, lon := some 50, countryCode := some "in", displayName := "Boxless, India" }

/-- The provider response carrying `candC8` as its first result, in the shape
consumed by astrology.ts's OSM fallback. -/
def respC8 : HttpResp1 (Option (List OsmCand)) :=
  { ok := true, status := 200, statusText := "OK", textResult := .ok ""
  , json := .ok (some [candC8]) }

/-- C8 counterexample: the astrology.ts provider stage (lines 115–155) does
not infer the timezone from the returned country code — for a candidate with
country code "in" (per the claim a single-timezone country, so Asia/Kolkata
+5.5) but coordinates outside its latitude/longitude box it assigns UTC with
offset 0. -/
theorem C8_counterexample :
    osmStage1 (Except.ok respC8) "somewhere" =
        Except.ok { timezoneId := "UTC", tzone := some 0, lat := some 50, lon := some 50 } ∧
    specCountryCodeTz candC8.countryCode = ("Asia/Kolkata", mkRat 11 2) := by
  exact ⟨rfl, by decide⟩

/-- Helper: the first-candidate behaviour of astrology.ts's OSM fallback
stage — an ok response whose JSON is a non-empty array yields the first
candidate's parsed coordinates with the bounding-box timezone guess. -/
theorem osmStage1_first (best : OsmCand) (rest : List OsmCand)
    (resp : HttpResp1 (Option (List OsmCand))) (place : String)
    (hok : resp.ok = true) (hjson : resp.json = Except.ok (some (best :: rest))) :
    osmStage1 (Except.ok resp) place =
      Except.ok { timezoneId := (osmGuess1 best.lat best.lon).1
                , tzone := some (osmGuess1 best.lat best.lon).2
                , lat := best.lat, lon := best.lon } := by
  unfold osmStage1
  dsimp only
  rw [hok, hjson]
  rfl

/-- C8 amended: of the two cited provider stages, part_003's (lines 118–152)
does infer the timezone from the returned country code — exactly the rule
"country code 'in' → Asia/Kolkata +5.5, otherwise UTC 0", with no second
network call — while the astrology.ts fallback stage (lines 115–155) infers
it from a latitude/longitude bounding box (lat ∈ [6,37], lon ∈ [68,98] →
Asia/Kolkata +5.5, otherwise UTC 0), ignoring the country code. -/
theorem C8_amended_tz_inference :
    (∀ (best : OsmCand) (rest : List OsmCand) (resp : HttpResp3 (Option (List OsmCand)))
        (query : String), resp.ok = true → resp.json = Except.ok (some (best :: rest)) →
      osmStage3 (Except.ok resp) query =
        Except.ok { lat := best.lat, lon := best.lon
                  , timezoneId := (specCountryCodeTz best.countryCode).1
                  , tzone := (specCountryCodeTz best.countryCode).2
                  , resolvedPlace := best.displayName }) ∧
    (∀ (best : OsmCand) (rest : List OsmCand) (resp : HttpResp1 (Option (List OsmCand)))
        (place : String), resp.ok = true → resp.json = Except.ok (some (best :: rest)) →
      osmStage1 (Except.ok resp) place =
        Except.ok { timezoneId := (osmGuess1 best.lat best.lon).1
                  , tzone := some (osmGuess1 best.lat best.lon).2
                  , lat := best.lat, lon := best.lon }) :=
  ⟨osmStage3_first, osmStage1_first⟩

/-- The ok response carrying `candC8` in part_003's shape. -/
def respC8ok : HttpResp3 (Option (List OsmCand)) :=
  { ok := true, status := 200, json := .ok (some [candC8]) }

/-- C8 amended, witness: a concrete Indian candidate routed through part_003's
stage gets Asia/Kolkata +5.5 from its country code. -/
theorem C8_amended_witness :
    respC8ok.ok = true ∧
    osmStage3 (Except.ok respC8ok) "somewhere" =
      Except.ok { lat := some 50, lon := some 50, timezoneId := "Asia/Kolkata"
                , tzone := mkRat 11 2, resolvedPlace := "Boxless, India" } :=
  ⟨rfl, C8_amended_tz_inference.1 candC8 [] respC8ok "somewhere" rfl rfl⟩

/-- A provider candidate with an out-of-range latitude. -/
def candC9 : OsmCand := { lat := some 999, lon := some 0, countryCode := none, displayName := "Nowhere" }

/-- The provider response carrying `candC9`, in part_003's shape. -/
def respC9 : HttpResp3 (Option (List OsmCand)) :=
  { ok := true, status := 200, json := .ok (some [candC9]) }

/-- C9 counterexample: the resolution stages perform no range validation, so
a provider response with latitude 999 produces a ResolvedLocation violating
the invariant latitude ∈ [-90, 90]. -/
theorem C9_counterexample :
    geocodePlace3 (Except.ok respC9) "Atlantis" =
        Except.ok { lat := some 999, lon := some 0, timezoneId := "UTC"
                  , tzone := 0, resolvedPlace := "Nowhere" } ∧
    locInvariant3 { lat := some 999, lon := some 0, timezoneId := "UTC"
                  , tzone := 0, resolvedPlace := "Nowhere" } = false := by
  exact ⟨rfl, by decide⟩

/-- The numeric-range invariant of the spec's ResolvedLocation over v1's
`LocationInfo` shape: latitude ∈ [-90, 90], longitude ∈ [-180, 180],
utcOffsetHours ∈ [-12, 14]; a NaN field (`none`) violates it. -/
def locInvariant1 (loc : LocationInfo) : Bool :=
  (match loc.lat with | some v => decide (-90 ≤ v) && decide (v ≤ 90) | none => false) &&
  (match loc.lon with | some v => decide (-180 ≤ v) && decide (v ≤ 180) | none => false) &&
  (match loc.tzone with | some v => decide (-12 ≤ v) && decide (v ≤ 14) | none => false)

/-- C9 amended: the numeric-range invariant holds for every static-table
result; part_003's provider stage preserves it whenever the provider's own
coordinates are in range (that stage assigns only the offsets 0 and +5.5);
the astrology.ts geo_details stage passes the provider's latitude, longitude
and tzone through with only NaN checks, so its locations satisfy the
invariant exactly when all three provider values are in range. No stage
validates or clamps ranges, so out-of-range provider values — latitude 999,
or tzone 99 with in-range coordinates — propagate into the ResolvedLocation
(see the counterexample and the witness). -/
theorem C9_amended_invariant :
    (∀ p ∈ fallbackTable,
      locInvariant3 { lat := some p.2.lat, lon := some p.2.lon, timezoneId := p.2.timezoneId
                    , tzone := p.2.tzone, resolvedPlace := p.1 } = true) ∧
    (∀ (best : OsmCand) (rest : List OsmCand) (resp : HttpResp3 (Option (List OsmCand)))
        (query : String) (la lo : ℚ),
      resp.ok = true → resp.json = Except.ok (some (best :: rest)) →
      best.lat = some la → -90 ≤ la → la ≤ 90 →
      best.lon = some lo → -180 ≤ lo → lo ≤ 180 →
      ∀ g, osmStage3 (Except.ok resp) query = Except.ok g → locInvariant3 g = true) ∧
    (∀ (first : GeoResult1) (rest : List GeoResult1) (la lo tz : ℚ),
      first.latitude = some (some la) → first.longitude = some (some lo) →
      first.tzone = some (some tz) →
      ∃ loc, tryGeoDetails1 (some (first :: rest)) = some loc ∧
        loc.lat = some la ∧ loc.lon = some lo ∧ loc.tzone = some tz ∧
        (locInvariant1 loc = true ↔
          ((-90 ≤ la ∧ la ≤ 90) ∧ (-180 ≤ lo ∧ lo ≤ 180) ∧ (-12 ≤ tz ∧ tz ≤ 14)))) := by
  refine ⟨by decide, ?_, ?_⟩
  · intro best rest resp query la lo hok hjson hla hla1 hla2 hlo hlo1 hlo2 g hg
    rw [osmStage3_first best rest resp query hok hjson] at hg
    cases hg
    have htz : (specCountryCodeTz best.countryCode).2 = mkRat 11 2 ∨
        (specCountryCodeTz best.countryCode).2 = 0 := by
      unfold specCountryCodeTz
      cases best.countryCode with
      | none => exact Or.inr rfl
      | some cc =>
        dsimp only
        by_cases hin : (jsToLower cc == "in") = true
        · rw [if_pos hin]; exact Or.inl rfl
        · rw [if_neg hin]; exact Or.inr rfl
    unfold locInvariant3
    dsimp only
    rw [hla, hlo]
    rcases htz with h2 | h2 <;>
      simp only [h2, Bool.and_eq_true, decide_eq_true_eq] <;>
      and_intros <;>
      first
        | exact hla1 | exact hla2 | exact hlo1 | exact hlo2 | decide
  · intro first rest la lo tz hla hlo htz
    unfold tryGeoDetails1
    dsimp only
    rw [htz, hla, hlo]
    dsimp only
    refine ⟨_, rfl, rfl, rfl, rfl, ?_⟩
    unfold locInvariant1
    dsimp only
    simp only [Bool.and_eq_true, decide_eq_true_eq]
    tauto

/-- A geo_details candidate with in-range coordinates and offset, in the
shape consumed by astrology.ts's first stage. -/
def geoOkC9 : GeoResult1 :=
  { timezone_id := some "Asia/Kolkata", timezone := none, tzone := some (some (mkRat 11 2))
  , latitude := some (some 19), longitude := some (some 72), lat := none, lon := none }

/-- A geo_details candidate with in-range coordinates but a provider-supplied
tzone of 99, which astrology.ts accepts (only NaN is rejected). -/
def geoBad99 : GeoResult1 :=
  { timezone_id := some "Asia/Kolkata", timezone := none, tzone := some (some 99)
  , latitude := some (some 19), longitude := some (some 72), lat := none, lon := none }

/-- C9 amended, witness: the Mumbai table row satisfies the invariant; a
concrete in-range provider candidate keeps it through part_003's OSM stage;
an in-range geo_details candidate keeps it through astrology.ts's first
stage; and the tzone-99 candidate is accepted by that stage with an
invariant-violating offset. -/
theorem C9_amended_witness :
    locInvariant3 { lat := some (mkRat 19076 1000), lon := some (mkRat 728777 10000)
                  , timezoneId := "Asia/Kolkata", tzone := mkRat 11 2
                  , resolvedPlace := "mumbai" } = true ∧
    locInvariant3 { lat := some 50, lon := some 50, timezoneId := "Asia/Kolkata"
                  , tzone := mkRat 11 2, resolvedPlace := "Boxless, India" } = true ∧
    (∃ loc, tryGeoDetails1 (some [geoOkC9]) = some loc ∧ locInvariant1 loc = true) ∧
    tryGeoDetails1 (some [geoBad99]) =
      some { timezoneId := "Asia/Kolkata", tzone := some 99, lat := some 19, lon := some 72 } ∧
    locInvariant1 { timezoneId := "Asia/Kolkata", tzone := some 99
                  , lat := some 19, lon := some 72 } = false :=
  ⟨C9_amended_invariant.1 ("mumbai", ⟨mkRat 19076 1000, mkRat 728777 10000, "Asia/Kolkata", mkRat 11 2⟩)
      (by decide),
    C9_amended_invariant.2.1 candC8 [] respC8ok "somewhere"
      50 50 rfl rfl rfl (by decide) (by decide) rfl (by decide) (by decide)
      { lat := some 50, lon := some 50, timezoneId := "Asia/Kolkata"
      , tzone := mkRat 11 2, resolvedPlace := "Boxless, India" }
      rfl,
    (by
      obtain ⟨loc, heq, hla, hlo, htz, hiff⟩ :=
        C9_amended_invariant.2.2 geoOkC9 [] 19 72 (mkRat 11 2) rfl rfl rfl
      exact ⟨loc, heq, hiff.mpr (by decide)⟩),
    rfl, by decide⟩

/-- Concrete BirthQuery-shaped input for the C1 counterexample (the spec's own
example query). -/
def qC1 : ToolInput :=
  { name := "Asha", day := 6, month := 3, year := 1998, hour := 14, minute := 30
  , place := "Mumbai", queryType := "birth_details" }

/-- The first geonames candidate of the C1 counterexample response. -/
def candGeoC1 : Geoname2 :=
  { latitude := some 19, longitude := some 72, place_name := some "Mumbai", country_code := some "IN" }

/-- The successful geo_details response for the C1 counterexample. -/
def geoRespC1 : Except Err (HttpResp2 GeoResp2) :=
  .ok { ok := true, status := 200, textResult := .ok "ok", parsed := some { geonames := some [candGeoC1] } }

/-- The successful timezone_with_dst response for the C1 counterexample. -/
def tzRespC1 : Except Err (HttpResp2 TzResp2) :=
  .ok { ok := true, status := 200, textResult := .ok "ok"
      , parsed := some { timezone := some (.num (mkRat 11 2)) } }

/-- The failing (HTTP 500) compute response for the C1 counterexample. -/
def computeRespC1 : Except Err (HttpResp2 AstroPayload) :=
  .ok { ok := false, status := 500, textResult := .ok "upstream compute failure"
      , parsed := none }

/-- Environment for the C1 counterexample: geocoding and timezone calls
succeed, the compute endpoint answers 500. -/
def envC1 : Env2 :=
  { creds := true, geoFetch := geoRespC1, tzFetch := tzRespC1
  , computeFetch := fun _ => computeRespC1 }

/-- C1 counterexample: the second `execute` cited by the claim (astrology.ts
lines 401–506) does NOT always return one of the result variants — when the
compute endpoint fails, the thrown error propagates out of `execute`, so the
operation completes with a raised exception. -/
theorem C1_counterexample :
    execute2 envC1 qC1 =
      Except.error "AstrologyAPI astro_details 500: upstream compute failure" := by
  rfl

/-- C1 amended: the first cited `execute` (astrology.ts lines 216–298) does
satisfy the claim — for every input and every upstream behaviour it returns
normally (never a raised exception), and the returned value is one of the
three result variants error / birth_chart / prediction; the draft at lines
401–506 violates this only when its compute-stage call throws (see the
counterexample), which the route wrapper then contains. -/
theorem C1_amended_execute_total (env : Env1) (q : ToolInput) :
    ∃ r, execute1 env q = Except.ok r ∧
      ((∃ m, r = ToolResult1.error m) ∨
       (∃ n p tz t la lo raw, r = ToolResult1.birthChart n p tz t la lo raw) ∨
       (∃ n p tz t la lo raw, r = ToolResult1.prediction n p tz t la lo raw)) := by
  unfold execute1
  cases geocodePlace1 env q.place with
  | error e => exact ⟨_, rfl, Or.inl ⟨_, rfl⟩⟩
  | ok loc =>
    dsimp only
    by_cases hq : q.queryType = "birth_chart"
    · rw [if_pos hq]
      cases callAstrologyApi1 env.creds "astro_details" (env.computeFetch "astro_details") with
      | error e => exact ⟨_, rfl, Or.inl ⟨_, rfl⟩⟩
      | ok raw => exact ⟨_, rfl, Or.inr (Or.inl ⟨_, _, _, _, _, _, _, rfl⟩)⟩
    · rw [if_neg hq]
      cases callAstrologyApi1 env.creds "birth_details" (env.computeFetch "birth_details") with
      | error e => exact ⟨_, rfl, Or.inl ⟨_, rfl⟩⟩
      | ok raw => exact ⟨_, rfl, Or.inr (Or.inr ⟨_, _, _, _, _, _, _, rfl⟩)⟩

/-- "The geo response carries no candidate": the exact test
`!Array.isArray(geonames) || geonames.length === 0` of astrology.ts line 422,
over a `callAstrologyApi` result (a non-JSON body has no `geonames` field). -/
def noGeoCandidates2 (gr : JsonOrText GeoResp2) : Bool :=
  match gr with
  | .json g =>
    match g.geonames with
    | none => true
    | some [] => true
    | some (_ :: _) => false
  | .text _ => true

/-- C7: when the geocoding stage yields no candidate, the query terminates
with the location-not-found result carrying the raw place input verbatim
(between the constant message prefix and suffix), and the compute call is
never consulted — for v2 (empty or absent `geonames`, the cited lines
421–427) and likewise for v1 (geo_details unusable and the OSM provider
returning an ok empty array, the cited lines 221–231); in both conclusions
the result is a fixed value independent of the compute oracle. -/
theorem C7_no_candidate_terminates :
    (∀ (env : Env2) (q : ToolInput) (gr : JsonOrText GeoResp2),
      callAstrologyApi2 env.creds "geo_details" env.geoFetch = Except.ok gr →
      noGeoCandidates2 gr = true →
      execute2 env q = Except.ok (.locationNotFound (v2LnfPre ++ q.place ++ v2LnfSuf))) ∧
    (∀ (env : Env1) (q : ToolInput) (resp : HttpResp1 (Option (List OsmCand))),
      (∀ geo, callAstrologyApi1 env.creds "geo_details" env.geoFetch = Except.ok geo →
        tryGeoDetails1 geo = none) →
      env.osmFetch = Except.ok resp → resp.ok = true →
      resp.json = Except.ok (some []) →
      execute1 env q = Except.ok (.error (v1GeoFailMsg q.place))) := by
  constructor
  · intro env q gr h1 h2
    unfold execute2
    rw [h1]
    cases gr with
    | text t => rfl
    | json g =>
      dsimp only
      cases hg : g.geonames with
      | none => rfl
      | some l =>
        cases l with
        | nil => rfl
        | cons a as => simp [noGeoCandidates2, hg] at h2
  · intro env q resp hgeo hosm hok hjson
    have hgp : geocodePlace1 env q.place =
        Except.error ("No location found for \"" ++ q.place ++ "\"") := by
      unfold geocodePlace1
      cases hc : callAstrologyApi1 env.creds "geo_details" env.geoFetch with
      | error e =>
        dsimp only
        rw [hosm]
        unfold osmStage1
        dsimp only
        rw [hok, hjson]
        rfl
      | ok geo =>
        dsimp only
        rw [hgeo geo hc]
        dsimp only
        rw [hosm]
        unfold osmStage1
        dsimp only
        rw [hok, hjson]
        rfl
    unfold execute1
    rw [hgp]

/-- A concrete moderation oracle for the C10 witness. -/
def modC10 : String → ModRes :=
  fun t =>
    if t = "hex my ex" then { flagged := true, denialMessage := some "I cannot help with that." }
    else { flagged := false, denialMessage := none }

/-- A single flagged user message for the C10 witness. -/
def msgsC10 : List UIMsg :=
  [ { role := "user", parts := [ { type := "text", text := "hex my ex" } ] } ]

/-- C10: when the extracted text of the latest user message is non-empty and
the moderation check flags it, the POST handler returns the moderation denial
outcome (with the flagged result's denial message, defaulted through `||`)
and the main chat logic — the model and every tool — is never invoked: the
conclusion holds for every `runChat`, whose value the result does not
mention. -/
theorem C10_moderation_short_circuit {α : Type} (moderate : String → ModRes)
    (runChat : Unit → α) (messages : List UIMsg) (latest : UIMsg)
    (hlast : (messages.filter (fun m => m.role = "user")).getLast? = some latest)
    (hne : ¬ (extractText latest = ""))
    (hflag : (moderate (extractText latest)).flagged = true) :
    postHandler moderate runChat messages =
      ChatOutcome.moderationDenial (denialDelta (moderate (extractText latest))) := by
  unfold postHandler
  rw [hlast]
  dsimp only
  rw [if_neg hne, if_pos hflag]

/-- C10 witness: a concrete flagged message short-circuits to the denial
stream with the moderation result's denial text. -/
theorem C10_witness :
    postHandler modC10 (fun _ => (0 : Nat)) msgsC10 =
      ChatOutcome.moderationDenial "I cannot help with that." :=
  C10_moderation_short_circuit modC10 (fun _ => (0 : Nat)) msgsC10
    { role := "user", parts := [ { type := "text", text := "hex my ex" } ] }
    (by decide) (by decide) (by decide)

/-- Query input for the C7 witness (the spec's "Zzzqx123" scenario). -/
def qC7 : ToolInput :=
  { name := "X", day := 1, month := 1, year := 2000, hour := 0, minute := 0
  , place := "Zzzqx123", queryType := "birth_details" }

/-- Environment for the C7 witness: the provider returns an ok response with
an empty result array; the timezone and compute oracles would reject if
consulted. -/
def envC7 : Env2 :=
  { creds := true
  , geoFetch := .ok { ok := true, status := 200, textResult := .ok "[]", parsed := some { geonames := some [] } }
  , tzFetch := .error "never called"
  , computeFetch := fun _ => .error "never called" }

/-- C7 witness: the empty-result-array scenario yields the location-not-found
result carrying the raw place input "Zzzqx123". -/
theorem C7_witness :
    execute2 envC7 qC7 =
      Except.ok (.locationNotFound (v2LnfPre ++ "Zzzqx123" ++ v2LnfSuf)) :=
  C7_no_candidate_terminates.1 envC7 qC7 (.json { geonames := some [] }) rfl rfl
